import Mathlib

/-!
# Verification of the chunari-backend payment server

A shallow embedding of `src/server.js` (with its helper
`src/utils/githubUploader.js`): the `/verify`, `/razorpay-webhook` and
`/create-order` Express handlers, together with the HMAC-SHA256 signature
check they perform via Node's `crypto.createHmac("sha256", secret)`.

The embedding models machine words as `Nat` with explicit reduction
modulo `2^32`, strings as Lean `String`s (HMAC input is their UTF-8
byte sequence, as Node encodes `update(...)` arguments), and each
handler as a pure function from the request, the environment
configuration and the outcomes of the external collaborators
(PDF stream, GitHub API, SMTP transport, gateway, `unlink`) to the
HTTP response, the list of observable side effects, and the temporary
files that remain on disk when the request completes.
-/

namespace Chunari

/-! ## SHA-256 (FIPS 180-4), bytes as `Nat` below 256, words as `Nat` below `2^32` -/

/-- Reduce to a 32-bit word. -/
def w32 (n : Nat) : Nat := n % 4294967296

/-- Right rotation of a 32-bit word. -/
def rotr (n x : Nat) : Nat := w32 ((x >>> n) ||| (x <<< (32 - n)))

def bsig0 (x : Nat) : Nat := rotr 2 x ^^^ rotr 13 x ^^^ rotr 22 x

def bsig1 (x : Nat) : Nat := rotr 6 x ^^^ rotr 11 x ^^^ rotr 25 x

def ssig0 (x : Nat) : Nat := rotr 7 x ^^^ rotr 18 x ^^^ (x >>> 3)

def ssig1 (x : Nat) : Nat := rotr 17 x ^^^ rotr 19 x ^^^ (x >>> 10)

/-- SHA-256 `Ch(x,y,z)`; `x ^^^ 4294967295` is 32-bit complement. -/
def chF (x y z : Nat) : Nat := (x &&& y) ^^^ ((x ^^^ 4294967295) &&& z)

def majF (x y z : Nat) : Nat := (x &&& y) ^^^ (x &&& z) ^^^ (y &&& z)

/-- The 64 SHA-256 round constants (FIPS 180-4 section 4.2.2, written in
decimal). -/
def K256 : List Nat :=
  [1116352408, 1899447441, 3049323471, 3921009573, 961987163, 1508970993,
   2453635748, 2870763221, 3624381080, 310598401, 607225278, 1426881987,
   1925078388, 2162078206, 2614888103, 3248222580, 3835390401, 4022224774,
   264347078, 604807628, 770255983, 1249150122, 1555081692, 1996064986,
   2554220882, 2821834349, 2952996808, 3210313671, 3336571891, 3584528711,
   113926993, 338241895, 666307205, 773529912, 1294757372, 1396182291,
   1695183700, 1986661051, 2177026350, 2456956037, 2730485921, 2820302411,
   3259730800, 3345764771, 3516065817, 3600352804, 4094571909, 275423344,
   430227734, 506948616, 659060556, 883997877, 958139571, 1322822218,
   1537002063, 1747873779, 1955562222, 2024104815, 2227730452, 2361852424,
   2428436474, 2756734187, 3204031479, 3329325298]

/-- The eight working registers of the compression function. -/
structure Hash8 where
  a : Nat
  b : Nat
  c : Nat
  d : Nat
  e : Nat
  f : Nat
  g : Nat
  h : Nat

/-- SHA-256 initial hash value (FIPS 180-4 section 5.3.3, in decimal). -/
def initH : Hash8 :=
  ⟨1779033703, 3144134277, 1013904242, 2773480762,
   1359893119, 2600822924, 528734635, 1541459225⟩

/-- Big-endian 32-bit word from four bytes. -/
def beWord (b0 b1 b2 b3 : Nat) : Nat := ((b0 * 256 + b1) * 256 + b2) * 256 + b3

/-- The 16 words of one 64-byte block, big-endian. -/
def words16 : List Nat → List Nat
  | b0 :: b1 :: b2 :: b3 :: rest => beWord b0 b1 b2 b3 :: words16 rest
  | _ => []

/-- Message schedule `W[0..63]` of one block. -/
def msgSchedule (block : List Nat) : Array Nat :=
  (List.range 48).foldl
    (fun w i =>
      let t := w32 (ssig1 (w.getD (i + 14) 0) + w.getD (i + 9) 0 + ssig0 (w.getD (i + 1) 0) +
        w.getD i 0)
      w.push t)
    (words16 block).toArray

/-- One round of the compression function. -/
def sha256Round (st : Hash8) (ki wi : Nat) : Hash8 :=
  let t1 := w32 (st.h + bsig1 st.e + chF st.e st.f st.g + ki + wi)
  let t2 := w32 (bsig0 st.a + majF st.a st.b st.c)
  ⟨w32 (t1 + t2), st.a, st.b, st.c, w32 (st.d + t1), st.e, st.f, st.g⟩

/-- Compress one 64-byte block into the running hash. -/
def sha256Compress (st : Hash8) (block : List Nat) : Hash8 :=
  let w := msgSchedule block
  let r := (List.range 64).foldl (fun s i => sha256Round s (K256.getD i 0) (w.getD i 0)) st
  ⟨w32 (st.a + r.a), w32 (st.b + r.b), w32 (st.c + r.c), w32 (st.d + r.d),
   w32 (st.e + r.e), w32 (st.f + r.f), w32 (st.g + r.g), w32 (st.h + r.h)⟩

/-- Big-endian 8-byte length field. -/
def lenBytes8 (n : Nat) : List Nat :=
  [n / 2 ^ 56 % 256, n / 2 ^ 48 % 256, n / 2 ^ 40 % 256, n / 2 ^ 32 % 256,
   n / 2 ^ 24 % 256, n / 2 ^ 16 % 256, n / 2 ^ 8 % 256, n % 256]

/-- SHA-256 padding: `0x80`, zeros to 56 mod 64, then the bit length. -/
def padMessage (msg : List Nat) : List Nat :=
  let l := msg.length
  msg ++ [0x80] ++ List.replicate ((119 - l % 64) % 64) 0 ++ lenBytes8 (8 * l)

/-- Split into 64-byte blocks. -/
def chunk64 (l : List Nat) : List (List Nat) :=
  if h : l = [] then [] else l.take 64 :: chunk64 (l.drop 64)
termination_by l.length
decreasing_by
  simp only [List.length_drop]
  have : 0 < l.length := List.length_pos.mpr h
  omega

/-- Big-endian bytes of one 32-bit word. -/
def wordBytes (n : Nat) : List Nat := [n / 2 ^ 24 % 256, n / 2 ^ 16 % 256, n / 2 ^ 8 % 256, n % 256]

/-- SHA-256 of a byte sequence, as 32 bytes. -/
def sha256Bytes (msg : List Nat) : List Nat :=
  let fin := (chunk64 (padMessage msg)).foldl sha256Compress initH
  wordBytes fin.a ++ wordBytes fin.b ++ wordBytes fin.c ++ wordBytes fin.d ++
  wordBytes fin.e ++ wordBytes fin.f ++ wordBytes fin.g ++ wordBytes fin.h

/-! ## HMAC-SHA256 and hex encoding (what `crypto.createHmac(...).digest("hex")` returns) -/

/-- Lower-case hex digit. -/
def hexDigit (n : Nat) : Char := if n < 10 then Char.ofNat (48 + n) else Char.ofNat (87 + n)

def byteHex (b : Nat) : List Char := [hexDigit (b / 16), hexDigit (b % 16)]

def hexOfBytes (bs : List Nat) : String := ⟨bs.flatMap byteHex⟩

/-- UTF-8 encoding of one scalar value. -/
def utf8Char (c : Char) : List Nat :=
  let n := c.toNat
  if n < 128 then [n]
  else if n < 2048 then [192 + n / 64, 128 + n % 64]
  else if n < 65536 then [224 + n / 4096, 128 + n / 64 % 64, 128 + n % 64]
  else [240 + n / 262144, 128 + n / 4096 % 64, 128 + n / 64 % 64, 128 + n % 64]

def utf8Bytes (s : String) : List Nat := s.data.flatMap utf8Char

/-- HMAC-SHA256 (RFC 2104): block size 64; the key is hashed when longer. -/
def hmacSha256 (key msg : List Nat) : List Nat :=
  let k0 := if 64 < key.length then sha256Bytes key else key
  let kp := k0 ++ List.replicate (64 - k0.length) 0
  sha256Bytes ((kp.map (fun b => b ^^^ 92)) ++ sha256Bytes ((kp.map (fun b => b ^^^ 54)) ++ msg))

/-- `crypto.createHmac("sha256", key).update(msg).digest("hex")` for UTF-8 strings. -/
def hmacSha256Hex (key msg : String) : String :=
  hexOfBytes (hmacSha256 (utf8Bytes key) (utf8Bytes msg))

/-! ## JavaScript value model

Request bodies are parsed JSON, so a field may be absent (`undefined`),
`null`, a boolean, a number or a string. `Option` models an absent
field; `truthyStr` is JS truthiness of a string-or-undefined value
(`undefined`, `null` and `""` are falsy). Number coercion of strings
(`Number(s)`) is a host builtin; the `/create-order` handler takes it
as an explicit parameter `strNum`, like `JSON.parse` for the webhook. -/

inductive JSVal where
  | undef
  | null
  | bool (b : Bool)
  | num (q : Rat)
  | str (s : String)
deriving DecidableEq

/-- `Number(v)` for the modelled values; `none` stands for `NaN`.
String coercion is the host's, passed in as `strNum`. -/
def jsToNumber (strNum : String → Option Rat) : JSVal → Option Rat
  | .undef => none
  | .null => some 0
  | .bool b => some (if b then 1 else 0)
  | .num q => some q
  | .str s => strNum s

/-- JS truthiness of a string field that may be absent. -/
def truthyStr : Option String → Bool
  | some s => !(s == "")
  | none => false

/-! ## Environment configuration (`safeEnv` of server.js) -/

/-- One deployment's environment variables; `none` is an unset variable. -/
structure Env where
  razorpayKeySecret : Option String := none
  webhookSecret : Option String := none
  githubOwner : Option String := none
  githubRepo : Option String := none
  githubBranch : Option String := none
  githubToken : Option String := none
  smtpHost : Option String := none
  smtpUser : Option String := none
  smtpPass : Option String := none
deriving DecidableEq

/-- server.js `safeEnv(name)`: the value when it is a nonempty string,
otherwise `undefined`. -/
def safeEnv (v : Option String) : Option String :=
  match v with
  | some s => if s == "" then none else some s
  | none => none

/-- server.js `safeEnv(name, fallback)` with a string fallback. -/
def safeEnvD (v : Option String) (fallback : String) : String :=
  match safeEnv v with
  | some s => s
  | none => fallback

/-! ## Request and response shapes -/

/-- The customer object of a request body (fields the handlers read). -/
structure Customer where
  name : Option String := none
  email : Option String := none
  phone : Option String := none
deriving DecidableEq

/-- One cart line of a request body. -/
structure CartItem where
  itemName : Option String := none
  qty : Option Rat := none
  price : Option Rat := none
deriving DecidableEq

/-- Body of `POST /verify`. -/
structure VerifyReq where
  razorpay_order_id : Option String := none
  razorpay_payment_id : Option String := none
  razorpay_signature : Option String := none
  amountPaise : JSVal := .undef
  customer : Option Customer := none
  cart : Option (List CartItem) := none
deriving DecidableEq

/-- The `commit` object of a GitHub contents-API response. -/
structure GithubCommit where
  sha : Option String := none
deriving DecidableEq

/-- A GitHub contents-API response (`uploadFileToGitHub`'s result). -/
structure GithubResult where
  commit : Option GithubCommit := none
deriving DecidableEq

/-- A gateway order object returned by `razorpay.orders.create`. -/
structure GatewayOrder where
  orderId : String := ""
  amount : Rat := 0
deriving DecidableEq

/-! ## Observable effects

Every externally visible action a handler can take, in the order the
code takes them. `journalWrite` exists so that the absence of any
order-journal interaction can be stated: no code in server.js emits it. -/

inductive Effect where
  | log (msg : String)
  | journalWrite (orderId paymentId : String)
  | render (orderId paymentId : String) (amountPaise : Option Rat)
      (customer : Customer) (cart : List CartItem)
  | createFile (path : String)
  | githubUpload (owner repo branch repoPath : String)
  | sendEmail (toAddr attachmentPath : String)
  | unlink (path : String)
  | createOrder (amount : Rat)
deriving DecidableEq

def Effect.isLog : Effect → Bool
  | .log _ => true
  | _ => false

def Effect.isJournalWrite : Effect → Bool
  | .journalWrite _ _ => true
  | _ => false

def Effect.isGithubUpload : Effect → Bool
  | .githubUpload _ _ _ _ => true
  | _ => false

def Effect.isSendEmail : Effect → Bool
  | .sendEmail _ _ => true
  | _ => false

/-! ## External-collaborator outcomes -/

/-- How `makeInvoicePDFFile`'s promise settles. `fs.createWriteStream`
creates the file before the document is written, so a stream error can
happen either before the file exists or after. -/
inductive RenderOutcome where
  | ok
  | failBeforeCreate (msg : String)
  | failAfterCreate (msg : String)
deriving DecidableEq

/-- Outcomes of the I/O the handlers await: the PDF stream, the GitHub
PUT, the SMTP send, `fs.unlink`, and `razorpay.orders.create`. -/
structure World where
  renderOutcome : RenderOutcome := .ok
  githubOutcome : Except String GithubResult := .error "network"
  emailOutcome : Except String Unit := .ok ()
  unlinkOk : Bool := true
  orderOutcome : Except String GatewayOrder := .error "gateway"

def exceptOk {e a : Type} : Except e a → Bool
  | .ok _ => true
  | .error _ => false

/-! ## `/verify` handler (server.js lines 192-310) -/

inductive VerifyResp where
  | missingFields
  | invalidSignature
  | serverError (msg : String)
  | success (order payment : String) (github : Option (Option String)) (emailQueued : Bool)
deriving DecidableEq

def VerifyResp.status : VerifyResp → Nat
  | .missingFields => 400
  | .invalidSignature => 400
  | .serverError _ => 500
  | .success _ _ _ _ => 200

def VerifyResp.okField : VerifyResp → Bool
  | .success _ _ _ _ => true
  | _ => false

/-- The `github` sub-object of a success response (`none` = JSON `null`). -/
def VerifyResp.githubField : VerifyResp → Option (Option String)
  | .success _ _ g _ => g
  | _ => none

/-- The `emailQueued` field of a success response. -/
def VerifyResp.emailQueuedField : VerifyResp → Option Bool
  | .success _ _ _ q => some q
  | _ => none

/-- One complete handling of a `/verify` request: the HTTP response, the
observable effects in order, and the invoice files left in `/tmp/invoices`
when the request has completed. -/
structure VerifyRun where
  resp : VerifyResp
  trace : List Effect
  filesLeft : List String
deriving DecidableEq

/-- server.js line 198: `!razorpay_order_id || !razorpay_payment_id || !razorpay_signature`. -/
def fieldsPresent (req : VerifyReq) : Bool :=
  truthyStr req.razorpay_order_id && truthyStr req.razorpay_payment_id &&
    truthyStr req.razorpay_signature

/-- server.js lines 203-208: the hex HMAC-SHA256 of `orderId|paymentId`
keyed with `safeEnv("RAZORPAY_KEY_SECRET") || ""`, compared to the
supplied signature. -/
def signatureOk (env : Env) (req : VerifyReq) : Bool :=
  hmacSha256Hex ((safeEnv env.razorpayKeySecret).getD "")
      ((req.razorpay_order_id.getD "") ++ "|" ++ (req.razorpay_payment_id.getD "")) ==
    req.razorpay_signature.getD ""

/-- server.js line 32: `String(orderId).replace(/[^a-zA-Z0-9-_]/g, "_")`
(the `orderId || Date.now()` fallback is unreachable: the handler already
rejected a falsy orderId). -/
def idSafeChar (c : Char) : Bool :=
  ('a' ≤ c && c ≤ 'z') || ('A' ≤ c && c ≤ 'Z') || ('0' ≤ c && c ≤ '9') || c == '-' || c == '_'

def sanitizeId (s : String) : String := ⟨s.data.map (fun c => if idSafeChar c then c else '_')⟩

/-- The invoice file name (server.js line 33). -/
def invoiceBase (orderId : String) : String := "invoice-order_" ++ sanitizeId orderId ++ ".pdf"

/-- The invoice path under `TMP_DIR = "/tmp/invoices"` (server.js lines 19, 34). -/
def invoicePath (orderId : String) : String := "/tmp/invoices/" ++ invoiceBase orderId

/-- server.js line 218: `typeof amountPaise === "number" ? amountPaise : undefined`. -/
def jsNumField : JSVal → Option Rat
  | .num q => some q
  | _ => none

/-- server.js lines 130-137: the transporter exists iff `SMTP_HOST`,
`SMTP_USER` and `SMTP_PASS` are all set nonempty. -/
def makeTransporter (env : Env) : Bool :=
  (safeEnv env.smtpHost).isSome && (safeEnv env.smtpUser).isSome && (safeEnv env.smtpPass).isSome

/-- server.js line 254: `customer && customer.email ? customer.email : null`. -/
def emailToAddr : Option Customer → Option String
  | some c =>
    match c.email with
    | some e => if e == "" then none else some e
    | none => none
  | none => none

/-- Result of the GitHub try-block (server.js lines 224-249): the value
left in `githubResult` and the effects of the block. -/
structure GithubSectionOut where
  result : Option GithubResult
  trace : List Effect
deriving DecidableEq

/-- server.js lines 224-249, with `uploadFileToGitHub`'s own guard
(utils/githubUploader.js lines 85-87) embedded in the attempt: a thrown
upload is caught, logged and leaves `githubResult = null`. -/
def githubSection (env : Env) (ghOutcome : Except String GithubResult)
    (fileName : String) : GithubSectionOut :=
  match safeEnv env.githubOwner, safeEnv env.githubRepo with
  | some o, some r =>
    match safeEnv env.githubToken with
    | some t =>
      let branch := safeEnvD env.githubBranch "main"
      let repoPath := "invoices/" ++ fileName
      if o == "" || r == "" || repoPath == "" || t == "" then
        { result := none,
          trace := [.log "GitHub upload error (non-fatal): owner, repo, path and token are required"] }
      else
        match ghOutcome with
        | .ok res =>
          { result := some res,
            trace := [.githubUpload o r branch repoPath, .log "GitHub upload OK."] }
        | .error e =>
          { result := none,
            trace := [.githubUpload o r branch repoPath,
              .log ("GitHub upload error (non-fatal): " ++ e)] }
    | none => { result := none, trace := [.log "GITHUB_TOKEN is missing - skipping GitHub upload."] }
  | _, _ =>
    { result := none, trace := [.log "GITHUB_OWNER or GITHUB_REPO not set - skipping GitHub upload."] }

/-- server.js lines 252-286: the email try-block. The send is started and
not awaited; the promise's settlement is only logged, so `emailOutcome`
never reaches the response. -/
def emailSection (env : Env) (emailOutcome : Except String Unit)
    (customer : Option Customer) (pdfPath : String) : List Effect :=
  if makeTransporter env then
    match emailToAddr customer with
    | some toAddr =>
      .sendEmail toAddr pdfPath ::
        (match emailOutcome with
         | .ok _ => [.log "Email sent (background)"]
         | .error e => [.log ("Email error (background, non-fatal): " ++ e)])
    | none => [.log "Customer email missing - skipping email."]
  else [.log "SMTP not configured - skipping email."]

/-- `POST /verify` (server.js lines 192-310). The only statement inside
the outer `try` that can throw after the missing-field and signature
checks is `await makeInvoicePDFFile(...)`; the GitHub block, the email
block and the cleanup `unlink` each catch their own exceptions. When the
render promise rejects, `pdfPath` is still `null`, so the `catch` block's
conditional unlink does nothing: a file the write stream already created
stays behind. -/
def verifyHandler (env : Env) (w : World) (req : VerifyReq) : VerifyRun :=
  if fieldsPresent req then
    if signatureOk env req then
      let orderId := req.razorpay_order_id.getD ""
      let paymentId := req.razorpay_payment_id.getD ""
      let verifiedLog := Effect.log ("Payment verified: " ++ orderId)
      let renderEff := Effect.render orderId paymentId (jsNumField req.amountPaise)
        (req.customer.getD {}) (req.cart.getD [])
      match w.renderOutcome with
      | .failBeforeCreate msg =>
        { resp := .serverError msg, trace := [verifiedLog, renderEff], filesLeft := [] }
      | .failAfterCreate msg =>
        { resp := .serverError msg,
          trace := [verifiedLog, renderEff, .createFile (invoicePath orderId)],
          filesLeft := [invoicePath orderId] }
      | .ok =>
        let pdfPath := invoicePath orderId
        let gh := githubSection env w.githubOutcome (invoiceBase orderId)
        let em := emailSection env w.emailOutcome req.customer pdfPath
        { resp := .success orderId paymentId
            (gh.result.map (fun g => g.commit.bind (fun c => c.sha))) true,
          trace := [verifiedLog, renderEff, .createFile pdfPath] ++ gh.trace ++ em ++
            [.unlink pdfPath],
          filesLeft := if w.unlinkOk then [] else [pdfPath] }
    else { resp := .invalidSignature, trace := [], filesLeft := [] }
  else { resp := .missingFields, trace := [], filesLeft := [] }

/-! ## `/razorpay-webhook` handler (server.js lines 314-362) -/

/-- The fields of a parsed webhook event the handler reads. -/
structure WebhookEvent where
  evName : Option String := none
  paymentId : Option String := none
  errorCode : Option String := none
deriving DecidableEq

/-- Body of `POST /razorpay-webhook`: the raw bytes (as the UTF-8 string
they decode to) and the `X-Razorpay-Signature` header. -/
structure WebhookReq where
  rawBody : String := ""
  signatureHeader : Option String := none
deriving DecidableEq

inductive WebhookResp where
  | invalidSignature
  | invalidJson
  | okResp
deriving DecidableEq

def WebhookResp.status : WebhookResp → Nat
  | .invalidSignature => 400
  | .invalidJson => 400
  | .okResp => 200

def WebhookResp.body : WebhookResp → String
  | .invalidSignature => "Invalid signature"
  | .invalidJson => "Invalid JSON"
  | .okResp => "OK"

structure WebhookRun where
  resp : WebhookResp
  trace : List Effect
deriving DecidableEq

/-- server.js lines 343-354: the event-type dispatch only logs. -/
def webhookEventLogs (e : WebhookEvent) : List Effect :=
  if e.evName == some "payment.captured" then [.log "payment.captured"]
  else if e.evName == some "payment.failed" then [.log "payment.failed"]
  else if e.evName == some "order.paid" then [.log "order.paid event"]
  else []

/-- server.js lines 332-357: JSON parse, event logging, `200 "OK"`. -/
def webhookAccept (parseJson : String → Option WebhookEvent) (bodyStr : String)
    (pre : List Effect) : WebhookRun :=
  match parseJson bodyStr with
  | none => { resp := .invalidJson, trace := pre ++ [.log "Webhook: failed to parse JSON body"] }
  | some event =>
    { resp := .okResp,
      trace := pre ++ [.log "Razorpay webhook received"] ++ webhookEventLogs event }

/-- `POST /razorpay-webhook` (server.js lines 314-362). `parseJson` stands
for the host's `JSON.parse` (`none` = it throws). The route uses
`express.raw`, so the HMAC runs over the raw body string. -/
def webhookHandler (env : Env) (parseJson : String → Option WebhookEvent)
    (req : WebhookReq) : WebhookRun :=
  let bodyStr := req.rawBody
  let signature := req.signatureHeader.getD ""
  match safeEnv env.webhookSecret with
  | some secret =>
    if signature == "" || !(hmacSha256Hex secret bodyStr == signature) then
      { resp := .invalidSignature, trace := [.log "Webhook signature mismatch - rejecting"] }
    else webhookAccept parseJson bodyStr []
  | none =>
    webhookAccept parseJson bodyStr
      [.log "No RAZORPAY_WEBHOOK_SECRET set in env - webhook signature verification skipped"]

/-! ## `/create-order` handler (server.js lines 170-189) -/

inductive CreateOrderResp where
  | badAmount
  | okOrder (order : GatewayOrder)
  | failed
deriving DecidableEq

def CreateOrderResp.status : CreateOrderResp → Nat
  | .badAmount => 400
  | .okOrder _ => 200
  | .failed => 500

structure CreateOrderRun where
  resp : CreateOrderResp
  trace : List Effect
deriving DecidableEq

/-- `POST /create-order` (server.js lines 170-189). The guard is JS
`!amount || amount <= 0`: `Number(req.body.amount)` equal to `NaN` or
`0` is falsy, and `NaN <= 0` is false, so the gateway is called exactly
when the coerced amount is a number strictly above zero. -/
def createOrderHandler (strNum : String → Option Rat) (w : World)
    (amountVal : JSVal) : CreateOrderRun :=
  match jsToNumber strNum amountVal with
  | none => { resp := .badAmount, trace := [] }
  | some q =>
    if q ≤ 0 then { resp := .badAmount, trace := [] }
    else
      match w.orderOutcome with
      | .ok o => { resp := .okOrder o, trace := [.createOrder q] }
      | .error _ => { resp := .failed, trace := [.createOrder q] }

/-! ## Derived predicates and spec-side definitions -/

/-- The archival sink counts as configured when `GITHUB_OWNER`,
`GITHUB_REPO` and `GITHUB_TOKEN` are all set nonempty (the three gates of
server.js lines 226-235). -/
def githubConfigured (env : Env) : Bool :=
  (safeEnv env.githubOwner).isSome && (safeEnv env.githubRepo).isSome &&
    (safeEnv env.githubToken).isSome

/-- An environment with the archival-sink configuration removed: the
handler run against it behaves as if no archival sink existed. -/
def clearGithub (env : Env) : Env :=
  { env with githubOwner := none, githubRepo := none, githubToken := none }

/-- The `/create-order` guard, spec side: the request is rejected iff the
coerced amount is `NaN` (`none`) or not strictly positive. -/
def amountRejected : Option Rat → Bool
  | none => true
  | some q => decide (q ≤ 0)

/-- Spec-side response function for the webhook, following the claim's
words: with a configured secret, a missing or mismatched header signature
over the raw body gives 400 "Invalid signature"; without a secret the
check is skipped; a body that fails JSON parsing gives 400 "Invalid
JSON"; otherwise 200 "OK". Compared against `webhookHandler` by
refinement. -/
def webhookSpecResp (env : Env) (parseJson : String → Option WebhookEvent)
    (req : WebhookReq) : WebhookResp :=
  match safeEnv env.webhookSecret with
  | some secret =>
    if req.signatureHeader.getD "" == "" ||
        !(hmacSha256Hex secret req.rawBody == req.signatureHeader.getD "") then
      .invalidSignature
    else
      match parseJson req.rawBody with
      | none => .invalidJson
      | some _ => .okResp
  | none =>
    match parseJson req.rawBody with
    | none => .invalidJson
    | some _ => .okResp

/-! ## Concrete scenario inputs (used by witnesses and counterexamples) -/

/-- A request whose signature is the digest the handler itself expects for
`env`: exactly what a correctly signing client (or, when the secret is
absent, anyone who can compute an HMAC with the empty key) sends. -/
def mkSignedReq (env : Env) (oid pid : String) (cust : Option Customer) : VerifyReq :=
  { razorpay_order_id := some oid, razorpay_payment_id := some pid,
    razorpay_signature := some (hmacSha256Hex ((safeEnv env.razorpayKeySecret).getD "")
      (oid ++ "|" ++ pid)),
    customer := cust }

/-- No environment variable set at all (in particular no gateway secret). -/
def secretlessEnv : Env := {}

/-- Only the gateway secret set: no archival sink, no SMTP. -/
def plainEnv : Env := { razorpayKeySecret := some "test_key_secret" }

/-- Gateway secret, archival sink and SMTP all configured. -/
def fullEnv : Env :=
  { razorpayKeySecret := some "test_key_secret", githubOwner := some "chunari",
    githubRepo := some "invoice-store", githubToken := some "ghp_token",
    smtpHost := some "smtp.example.com", smtpUser := some "mailer", smtpPass := some "hunter2" }

/-- Archival owner and repo set but the token missing. -/
def noTokenEnv : Env :=
  { razorpayKeySecret := some "test_key_secret", githubOwner := some "chunari",
    githubRepo := some "invoice-store" }

/-- A customer with a deliverable email address. -/
def mailedCustomer : Customer := { name := some "Asha", email := some "asha@example.com" }

/-- Render succeeds; the GitHub call would fail if attempted; email would
send; deletion succeeds; the gateway is down. -/
def quietWorld : World :=
  { renderOutcome := .ok, githubOutcome := .error "network unreachable",
    emailOutcome := .ok (), unlinkOk := true, orderOutcome := .error "gateway down" }

/-- Both fulfillment sinks throw. -/
def throwyWorld : World :=
  { renderOutcome := .ok, githubOutcome := .error "github 500",
    emailOutcome := .error "smtp timeout", unlinkOk := true, orderOutcome := .error "gateway down" }

/-- The PDF write stream errors after `createWriteStream` has created the
file (for example the disk fills while the document is piped). -/
def leakWorld : World :=
  { renderOutcome := .failAfterCreate "ENOSPC: no space left on device",
    githubOutcome := .error "network unreachable", emailOutcome := .ok (),
    unlinkOk := true, orderOutcome := .error "gateway down" }

/-- The gateway accepts order creation. -/
def testOrder : GatewayOrder := { orderId := "order_abc", amount := 50000 }

def gatewayWorld : World :=
  { renderOutcome := .ok, githubOutcome := .error "network unreachable",
    emailOutcome := .ok (), unlinkOk := true, orderOutcome := .ok testOrder }

/-! ## Helper lemmas -/

theorem sha256Bytes_length (m : List Nat) : (sha256Bytes m).length = 32 := by
  simp [sha256Bytes, wordBytes]

theorem hexOfBytes_length (bs : List Nat) : (hexOfBytes bs).length = 2 * bs.length := by
  show (bs.flatMap byteHex).length = 2 * bs.length
  induction bs with
  | nil => rfl
  | cons b t ih => simp only [List.flatMap_cons, List.length_append, ih, byteHex,
      List.length_cons, List.length_nil]; omega

/-- The hex digest `crypto` returns always has 64 characters. -/
theorem hmacSha256Hex_length (k m : String) : (hmacSha256Hex k m).length = 64 := by
  rw [hmacSha256Hex, hexOfBytes_length, hmacSha256, sha256Bytes_length]

theorem hmacSha256Hex_ne_of_length (k m s : String) (h : s.length ≠ 64) :
    hmacSha256Hex k m ≠ s :=
  fun e => h (e ▸ hmacSha256Hex_length k m)

theorem hmacSha256Hex_beq_empty (k m : String) : (hmacSha256Hex k m == "") = false := by
  rw [beq_eq_false_iff_ne]
  exact hmacSha256Hex_ne_of_length k m "" (by decide)

theorem truthyStr_digest (k m : String) : truthyStr (some (hmacSha256Hex k m)) = true := by
  simp [truthyStr, hmacSha256Hex_beq_empty]

/-- `safeEnv` only ever returns nonempty strings. -/
theorem safeEnv_ne_empty {v : Option String} {s : String} (h : safeEnv v = some s) :
    (s == "") = false := by
  cases v with
  | none => simp [safeEnv] at h
  | some a =>
    simp only [safeEnv] at h
    split at h
    · cases h
    · rename_i hne
      cases h
      simpa using hne

/-- A request signed exactly as the handler expects passes the field check. -/
theorem fieldsPresent_mkSignedReq (env : Env) (oid pid : String) (cust : Option Customer)
    (h1 : (oid == "") = false) (h2 : (pid == "") = false) :
    fieldsPresent (mkSignedReq env oid pid cust) = true := by
  simp [fieldsPresent, mkSignedReq, truthyStr, h1, h2, hmacSha256Hex_beq_empty]

/-- A request signed exactly as the handler expects passes the HMAC check. -/
theorem signatureOk_mkSignedReq (env : Env) (oid pid : String) (cust : Option Customer) :
    signatureOk env (mkSignedReq env oid pid cust) = true := by
  simp [signatureOk, mkSignedReq]

theorem invoices_path_ne_empty (f : String) : (("invoices/" ++ f) == "") = false := by
  rw [beq_eq_false_iff_ne]
  intro e
  have h0 : ("invoices/" ++ f).length = 0 := by rw [e]; rfl
  rw [String.length_append] at h0
  have h9 : ("invoices/" : String).length = 9 := rfl
  omega

/-- A thrown GitHub upload leaves `githubResult = null`. -/
theorem githubSection_result_none_of_error (env : Env) (msg fileName : String) :
    (githubSection env (.error msg) fileName).result = none := by
  unfold githubSection
  cases safeEnv env.githubOwner with
  | none => rfl
  | some o =>
    cases safeEnv env.githubRepo with
    | none => rfl
    | some r =>
      cases safeEnv env.githubToken with
      | none => rfl
      | some t =>
        dsimp only
        split <;> rfl

/-- Missing archival credentials leave `githubResult = null` and attempt
no upload. -/
theorem githubSection_missing (env : Env) (o : Except String GithubResult) (fileName : String)
    (h : safeEnv env.githubOwner = none ∨ safeEnv env.githubRepo = none ∨
      safeEnv env.githubToken = none) :
    (githubSection env o fileName).result = none ∧
      (githubSection env o fileName).trace.all (fun e => !e.isGithubUpload) = true := by
  unfold githubSection
  cases ho : safeEnv env.githubOwner with
  | none => exact ⟨rfl, rfl⟩
  | some ow =>
    cases hr : safeEnv env.githubRepo with
    | none => exact ⟨rfl, rfl⟩
    | some rp =>
      cases ht : safeEnv env.githubToken with
      | none => exact ⟨rfl, rfl⟩
      | some tk => simp [ho, hr, ht] at h

/-- The GitHub result is present exactly when the sink is configured and
the upload succeeded. -/
theorem githubSection_result_some_iff (env : Env) (o : Except String GithubResult)
    (fileName : String) :
    (githubSection env o fileName).result.isSome = (githubConfigured env && exceptOk o) := by
  unfold githubSection githubConfigured
  cases ho : safeEnv env.githubOwner with
  | none => rfl
  | some ow =>
    cases hr : safeEnv env.githubRepo with
    | none => rfl
    | some rp =>
      cases ht : safeEnv env.githubToken with
      | none => rfl
      | some tk =>
        dsimp only
        rw [safeEnv_ne_empty ho, safeEnv_ne_empty hr, safeEnv_ne_empty ht,
          invoices_path_ne_empty]
        cases o <;> simp [exceptOk]

/-- Every effect of the GitHub block is a log line or the upload itself. -/
theorem githubSection_trace_shape (env : Env) (o : Except String GithubResult)
    (fileName : String) :
    ∀ e ∈ (githubSection env o fileName).trace, e.isLog = true ∨ e.isGithubUpload = true := by
  unfold githubSection
  cases safeEnv env.githubOwner with
  | none => intro e he; simp at he; subst he; left; rfl
  | some ow =>
    cases safeEnv env.githubRepo with
    | none => intro e he; simp at he; subst he; left; rfl
    | some rp =>
      cases safeEnv env.githubToken with
      | none => intro e he; simp at he; subst he; left; rfl
      | some tk =>
        dsimp only
        split
        · intro e he; simp at he; subst he; left; rfl
        · cases o with
          | ok res =>
            intro e he
            simp at he
            rcases he with rfl | rfl
            · right; rfl
            · left; rfl
          | error msg =>
            intro e he
            simp at he
            rcases he with rfl | rfl
            · right; rfl
            · left; rfl

/-- Every effect of the email block is a log line or the send itself. -/
theorem emailSection_trace_shape (env : Env) (o : Except String Unit)
    (cust : Option Customer) (p : String) :
    ∀ e ∈ emailSection env o cust p, e.isLog = true ∨ e.isSendEmail = true := by
  unfold emailSection
  split
  · cases emailToAddr cust with
    | none => intro e he; simp at he; subst he; left; rfl
    | some toAddr =>
      cases o with
      | ok u =>
        intro e he
        simp at he
        rcases he with rfl | rfl
        · right; rfl
        · left; rfl
      | error msg =>
        intro e he
        simp at he
        rcases he with rfl | rfl
        · right; rfl
        · left; rfl
  · intro e he; simp at he; subst he; left; rfl

theorem githubSection_all_not_journal (env : Env) (o : Except String GithubResult)
    (fileName : String) :
    (githubSection env o fileName).trace.all (fun e => !e.isJournalWrite) = true := by
  rw [List.all_eq_true]
  intro e he
  rcases githubSection_trace_shape env o fileName e he with h | h <;>
    cases e <;> simp_all [Effect.isLog, Effect.isGithubUpload, Effect.isJournalWrite]

theorem emailSection_all_not_journal (env : Env) (o : Except String Unit)
    (cust : Option Customer) (p : String) :
    (emailSection env o cust p).all (fun e => !e.isJournalWrite) = true := by
  rw [List.all_eq_true]
  intro e he
  rcases emailSection_trace_shape env o cust p e he with h | h <;>
    cases e <;> simp_all [Effect.isLog, Effect.isSendEmail, Effect.isJournalWrite]

theorem emailSection_all_not_upload (env : Env) (o : Except String Unit)
    (cust : Option Customer) (p : String) :
    (emailSection env o cust p).all (fun e => !e.isGithubUpload) = true := by
  rw [List.all_eq_true]
  intro e he
  rcases emailSection_trace_shape env o cust p e he with h | h <;>
    cases e <;> simp_all [Effect.isLog, Effect.isSendEmail, Effect.isGithubUpload]

/-- No run of the `/verify` handler ever writes to an order journal. -/
theorem verifyHandler_no_journal (env : Env) (w : World) (req : VerifyReq) :
    (verifyHandler env w req).trace.all (fun e => !e.isJournalWrite) = true := by
  unfold verifyHandler
  split
  · split
    · cases w.renderOutcome with
      | failBeforeCreate msg => rfl
      | failAfterCreate msg => rfl
      | ok =>
        dsimp only
        rw [List.all_eq_true]
        intro e he
        simp only [List.mem_append, List.mem_cons, List.not_mem_nil, or_false] at he
        rcases he with (((rfl | rfl | rfl) | hgh) | hem) | rfl
        · rfl
        · rfl
        · rfl
        · rcases githubSection_trace_shape env w.githubOutcome _ e hgh with h | h <;>
            cases e <;> simp_all [Effect.isLog, Effect.isGithubUpload, Effect.isJournalWrite]
        · rcases emailSection_trace_shape env w.emailOutcome _ _ e hem with h | h <;>
            cases e <;> simp_all [Effect.isLog, Effect.isSendEmail, Effect.isJournalWrite]
        · rfl
    · rfl
  · rfl

/-- With any archival credential missing, no run attempts an upload. -/
theorem verifyHandler_no_upload_of_missing (env : Env) (w : World) (req : VerifyReq)
    (h : safeEnv env.githubOwner = none ∨ safeEnv env.githubRepo = none ∨
      safeEnv env.githubToken = none) :
    (verifyHandler env w req).trace.all (fun e => !e.isGithubUpload) = true := by
  unfold verifyHandler
  split
  · split
    · cases w.renderOutcome with
      | failBeforeCreate msg => rfl
      | failAfterCreate msg => rfl
      | ok =>
        dsimp only
        rw [List.all_eq_true]
        intro e he
        simp only [List.mem_append, List.mem_cons, List.not_mem_nil, or_false] at he
        rcases he with (((rfl | rfl | rfl) | hgh) | hem) | rfl
        · rfl
        · rfl
        · rfl
        · have hb := (githubSection_missing env w.githubOutcome
            (invoiceBase (req.razorpay_order_id.getD "")) h).2
          rw [List.all_eq_true] at hb
          exact hb e hgh
        · have hb := emailSection_all_not_upload env w.emailOutcome req.customer
            (invoicePath (req.razorpay_order_id.getD ""))
          rw [List.all_eq_true] at hb
          exact hb e hem
        · rfl
    · rfl
  · rfl

/-- When the GitHub block ends with `githubResult = null` (skip or caught
throw), the response is the one an unconfigured archival sink produces. -/
theorem verifyHandler_resp_of_ghResult_none (env : Env) (w : World) (req : VerifyReq)
    (h : (githubSection env w.githubOutcome
      (invoiceBase (req.razorpay_order_id.getD ""))).result = none) :
    (verifyHandler env w req).resp = (verifyHandler (clearGithub env) w req).resp := by
  have hsig : signatureOk (clearGithub env) req = signatureOk env req := rfl
  have hgc : (githubSection (clearGithub env) w.githubOutcome
      (invoiceBase (req.razorpay_order_id.getD ""))).result = none := rfl
  unfold verifyHandler
  rw [hsig]
  by_cases hf : fieldsPresent req = true
  · rw [if_pos hf, if_pos hf]
    by_cases hs : signatureOk env req = true
    · rw [if_pos hs, if_pos hs]
      cases hr : w.renderOutcome with
      | failBeforeCreate msg => rfl
      | failAfterCreate msg => rfl
      | ok =>
        dsimp only
        rw [h, hgc]
    · rw [if_neg hs, if_neg hs]
  · rw [if_neg hf, if_neg hf]

/-- With a thrown upload, the success response's `github` field is `null`. -/
theorem verifyHandler_githubField_none_of_error (env : Env) (w : World) (req : VerifyReq)
    (msg : String) (hmsg : w.githubOutcome = .error msg) :
    (verifyHandler env w req).resp.githubField = none := by
  unfold verifyHandler
  by_cases hf : fieldsPresent req = true
  · rw [if_pos hf]
    by_cases hs : signatureOk env req = true
    · rw [if_pos hs]
      cases hr : w.renderOutcome with
      | failBeforeCreate m => rfl
      | failAfterCreate m => rfl
      | ok =>
        dsimp only [VerifyResp.githubField]
        rw [hmsg, githubSection_result_none_of_error]
        rfl
    · rw [if_neg hs]; rfl
  · rw [if_neg hf]; rfl

theorem webhookEventLogs_all_log (ev : WebhookEvent) :
    (webhookEventLogs ev).all Effect.isLog = true := by
  unfold webhookEventLogs
  split
  · rfl
  · split
    · rfl
    · split
      · rfl
      · rfl

/-! ## The claims -/

/-- C1 (auxiliary, first half): with the required fields present, the
`/verify` endpoint rejects with "Invalid signature" exactly when the
supplied signature differs from the hex HMAC-SHA256 of
`orderId + "|" + paymentId` keyed with the configured secret. -/
theorem verify_rejects_iff_digest_mismatch (env : Env) (w : World) (req : VerifyReq)
    (hf : fieldsPresent req = true) :
    ((verifyHandler env w req).resp = .invalidSignature ↔ signatureOk env req = false) := by
  unfold verifyHandler
  rw [if_pos hf]
  by_cases hs : signatureOk env req = true
  · rw [if_pos hs, hs]
    cases w.renderOutcome <;> simp
  · rw [if_neg hs]
    simp only [Bool.not_eq_true] at hs
    simp [hs]

/-- C1 (auxiliary, second half): replacing an accepted request's signature
by any other string makes the HMAC check fail. The corresponding statement
for a changed `orderId` or `paymentId` is collision resistance of
HMAC-SHA256 and is neither provable nor refutable here. -/
theorem signature_mutation_fails (env : Env) (req : VerifyReq) (s : String)
    (hs : signatureOk env req = true) (hne : s ≠ req.razorpay_signature.getD "") :
    signatureOk env { req with razorpay_signature := some s } = false := by
  unfold signatureOk at hs
  rw [beq_iff_eq] at hs
  show (hmacSha256Hex ((safeEnv env.razorpayKeySecret).getD "")
      ((req.razorpay_order_id.getD "") ++ "|" ++ (req.razorpay_payment_id.getD "")) == s) = false
  rw [beq_eq_false_iff_ne]
  intro he
  exact hne ((hs.symm.trans he).symm)

/-- C2: with `RAZORPAY_KEY_SECRET` unset, the handler raises no
configuration error; it runs the HMAC with the empty key, so the forged
signature `HMAC-SHA256("", "order_a|pay_b")` — computable by anyone — is
accepted and the request is fully fulfilled with `ok: true`. -/
theorem verify_missing_secret_accepts :
    (verifyHandler secretlessEnv quietWorld
        (mkSignedReq secretlessEnv "order_a" "pay_b" none)).resp.okField = true ∧
    (verifyHandler secretlessEnv quietWorld
        (mkSignedReq secretlessEnv "order_a" "pay_b" none)).resp.status = 200 := by
  have hf := fieldsPresent_mkSignedReq secretlessEnv "order_a" "pay_b" none (by decide) (by decide)
  have hs := signatureOk_mkSignedReq secretlessEnv "order_a" "pay_b" none
  unfold verifyHandler
  rw [if_pos hf, if_pos hs]
  exact ⟨rfl, rfl⟩

/-- C3: when the signature check and the render succeed, the response is
`ok: true` with status 200 even when the archival upload and the email
send both throw; the sink errors never reach the response. -/
theorem verify_fanout_isolation (env : Env) (w : World) (req : VerifyReq) (e1 e2 : String)
    (hf : fieldsPresent req = true) (hs : signatureOk env req = true)
    (hr : w.renderOutcome = .ok)
    (hg : w.githubOutcome = .error e1) (he : w.emailOutcome = .error e2) :
    (verifyHandler env w req).resp.okField = true ∧
      (verifyHandler env w req).resp.status = 200 := by
  unfold verifyHandler
  rw [if_pos hf, if_pos hs, hr]
  exact ⟨rfl, rfl⟩

theorem verify_fanout_isolation_witness :
    (verifyHandler fullEnv throwyWorld
        (mkSignedReq fullEnv "order_c3" "pay_c3" (some mailedCustomer))).resp.okField = true ∧
    (verifyHandler fullEnv throwyWorld
        (mkSignedReq fullEnv "order_c3" "pay_c3" (some mailedCustomer))).resp.status = 200 :=
  verify_fanout_isolation fullEnv throwyWorld
    (mkSignedReq fullEnv "order_c3" "pay_c3" (some mailedCustomer)) "github 500" "smtp timeout"
    (fieldsPresent_mkSignedReq fullEnv "order_c3" "pay_c3" (some mailedCustomer)
      (by decide) (by decide))
    (signatureOk_mkSignedReq fullEnv "order_c3" "pay_c3" (some mailedCustomer)) rfl rfl rfl

/-- C4 (counterexample): a run whose signature check succeeds and whose
whole effect trace contains no journal write at all — the orchestrator
never records a Verification Event. -/
theorem verify_no_journal_event_cex :
    signatureOk plainEnv (mkSignedReq plainEnv "order_j" "pay_j" none) = true ∧
    (verifyHandler plainEnv quietWorld (mkSignedReq plainEnv "order_j" "pay_j" none)).trace.all
      (fun e => !e.isJournalWrite) = true :=
  ⟨signatureOk_mkSignedReq plainEnv "order_j" "pay_j" none,
   verifyHandler_no_journal plainEnv quietWorld (mkSignedReq plainEnv "order_j" "pay_j" none)⟩

/-- C4 (amended): after a successful signature check the handler only
logs the verification to the console and renders directly from the
request-supplied customer and cart (empty defaults when absent); no
verification event is journaled and no journal lookup occurs. -/
theorem verify_logs_and_uses_request_facts (env : Env) (w : World) (req : VerifyReq)
    (hf : fieldsPresent req = true) (hs : signatureOk env req = true) :
    (verifyHandler env w req).trace.all (fun e => !e.isJournalWrite) = true ∧
    Effect.log ("Payment verified: " ++ req.razorpay_order_id.getD "")
      ∈ (verifyHandler env w req).trace ∧
    Effect.render (req.razorpay_order_id.getD "") (req.razorpay_payment_id.getD "")
        (jsNumField req.amountPaise) (req.customer.getD {}) (req.cart.getD [])
      ∈ (verifyHandler env w req).trace := by
  refine ⟨verifyHandler_no_journal env w req, ?_, ?_⟩ <;>
  · unfold verifyHandler
    rw [if_pos hf, if_pos hs]
    cases w.renderOutcome <;> simp

theorem verify_logs_and_uses_request_facts_witness :
    (verifyHandler plainEnv quietWorld (mkSignedReq plainEnv "order_j" "pay_j" none)).trace.all
      (fun e => !e.isJournalWrite) = true ∧
    Effect.log ("Payment verified: " ++
        (mkSignedReq plainEnv "order_j" "pay_j" none).razorpay_order_id.getD "")
      ∈ (verifyHandler plainEnv quietWorld (mkSignedReq plainEnv "order_j" "pay_j" none)).trace ∧
    Effect.render ((mkSignedReq plainEnv "order_j" "pay_j" none).razorpay_order_id.getD "")
        ((mkSignedReq plainEnv "order_j" "pay_j" none).razorpay_payment_id.getD "")
        (jsNumField (mkSignedReq plainEnv "order_j" "pay_j" none).amountPaise)
        ((mkSignedReq plainEnv "order_j" "pay_j" none).customer.getD {})
        ((mkSignedReq plainEnv "order_j" "pay_j" none).cart.getD [])
      ∈ (verifyHandler plainEnv quietWorld (mkSignedReq plainEnv "order_j" "pay_j" none)).trace :=
  verify_logs_and_uses_request_facts plainEnv quietWorld
    (mkSignedReq plainEnv "order_j" "pay_j" none)
    (fieldsPresent_mkSignedReq plainEnv "order_j" "pay_j" none (by decide) (by decide))
    (signatureOk_mkSignedReq plainEnv "order_j" "pay_j" none)

/-- C5 (counterexample): with SMTP unconfigured the email is skipped — the
trace contains no send — yet the response still reports
`emailQueued: true`: the notify sub-field is not "true exactly when a send
was attempted". -/
theorem verify_emailQueued_without_attempt :
    (verifyHandler plainEnv quietWorld
        (mkSignedReq plainEnv "order_e" "pay_e" none)).resp.emailQueuedField = some true ∧
    (verifyHandler plainEnv quietWorld (mkSignedReq plainEnv "order_e" "pay_e" none)).trace.all
      (fun e => !e.isSendEmail) = true := by
  have hf := fieldsPresent_mkSignedReq plainEnv "order_e" "pay_e" none (by decide) (by decide)
  have hs := signatureOk_mkSignedReq plainEnv "order_e" "pay_e" none
  unfold verifyHandler
  rw [if_pos hf, if_pos hs]
  exact ⟨rfl, rfl⟩

/-- C5 (amended): in every success response the `github` sub-field is
present exactly when the archival upload was attempted and succeeded,
while `emailQueued` is the constant `true`, whether or not a send was
attempted or skipped. -/
theorem verify_response_subfields (env : Env) (w : World) (req : VerifyReq)
    (hf : fieldsPresent req = true) (hs : signatureOk env req = true)
    (hr : w.renderOutcome = .ok) :
    (verifyHandler env w req).resp.githubField.isSome =
      (githubConfigured env && exceptOk w.githubOutcome) ∧
    (verifyHandler env w req).resp.emailQueuedField = some true := by
  unfold verifyHandler
  rw [if_pos hf, if_pos hs, hr]
  constructor
  · dsimp only [VerifyResp.githubField]
    rw [← githubSection_result_some_iff env w.githubOutcome
      (invoiceBase (req.razorpay_order_id.getD ""))]
    cases (githubSection env w.githubOutcome (invoiceBase (req.razorpay_order_id.getD ""))).result <;>
      rfl
  · rfl

theorem verify_response_subfields_witness :
    (verifyHandler fullEnv quietWorld
        (mkSignedReq fullEnv "order_s" "pay_s" (some mailedCustomer))).resp.githubField.isSome =
      (githubConfigured fullEnv && exceptOk quietWorld.githubOutcome) ∧
    (verifyHandler fullEnv quietWorld
        (mkSignedReq fullEnv "order_s" "pay_s" (some mailedCustomer))).resp.emailQueuedField =
      some true :=
  verify_response_subfields fullEnv quietWorld
    (mkSignedReq fullEnv "order_s" "pay_s" (some mailedCustomer))
    (fieldsPresent_mkSignedReq fullEnv "order_s" "pay_s" (some mailedCustomer)
      (by decide) (by decide))
    (signatureOk_mkSignedReq fullEnv "order_s" "pay_s" (some mailedCustomer)) rfl

/-- C6: when the PDF write stream errors after `createWriteStream` already
created the file, `pdfPath` is never assigned, no cleanup path runs, and
the temporary invoice file remains on disk after the request completes. -/
theorem verify_render_failure_leaks_file :
    Effect.createFile (invoicePath "order_f") ∈
      (verifyHandler plainEnv leakWorld (mkSignedReq plainEnv "order_f" "pay_f" none)).trace ∧
    (verifyHandler plainEnv leakWorld (mkSignedReq plainEnv "order_f" "pay_f" none)).filesLeft =
      [invoicePath "order_f"] := by
  have hf := fieldsPresent_mkSignedReq plainEnv "order_f" "pay_f" none (by decide) (by decide)
  have hs := signatureOk_mkSignedReq plainEnv "order_f" "pay_f" none
  unfold verifyHandler
  rw [if_pos hf, if_pos hs]
  exact ⟨by simp [leakWorld, mkSignedReq], rfl⟩

/-- C7: the webhook's response refines the spec-side decision function —
with a configured secret a missing or mismatched raw-body signature gives
400 "Invalid signature", a non-parsing body gives 400 "Invalid JSON" and
anything else 200 "OK" — and with no secret configured the skip is logged,
never silently treated as verified. -/
theorem webhook_resp_spec (env : Env) (parseJson : String → Option WebhookEvent)
    (req : WebhookReq) :
    (webhookHandler env parseJson req).resp = webhookSpecResp env parseJson req ∧
    (safeEnv env.webhookSecret = none →
      Effect.log "No RAZORPAY_WEBHOOK_SECRET set in env - webhook signature verification skipped"
        ∈ (webhookHandler env parseJson req).trace) := by
  unfold webhookHandler webhookSpecResp webhookAccept
  cases hsec : safeEnv env.webhookSecret with
  | some s =>
    constructor
    · dsimp only
      by_cases hc : (req.signatureHeader.getD "" == "" ||
          !(hmacSha256Hex s req.rawBody == req.signatureHeader.getD "")) = true
      · rw [if_pos hc, if_pos hc]
      · rw [if_neg hc, if_neg hc]
        cases parseJson req.rawBody <;> rfl
    · intro hnone
      simp at hnone
  | none =>
    dsimp only
    constructor
    · cases parseJson req.rawBody <;> rfl
    · intro _
      cases parseJson req.rawBody <;> simp

theorem webhook_resp_spec_witness :
    (webhookHandler secretlessEnv (fun _ => none)
        { rawBody := "not json", signatureHeader := none }).resp =
      webhookSpecResp secretlessEnv (fun _ => none)
        { rawBody := "not json", signatureHeader := none } ∧
    Effect.log "No RAZORPAY_WEBHOOK_SECRET set in env - webhook signature verification skipped"
      ∈ (webhookHandler secretlessEnv (fun _ => none)
          { rawBody := "not json", signatureHeader := none }).trace :=
  ⟨(webhook_resp_spec secretlessEnv (fun _ => none)
      { rawBody := "not json", signatureHeader := none }).1,
   (webhook_resp_spec secretlessEnv (fun _ => none)
      { rawBody := "not json", signatureHeader := none }).2 rfl⟩

/-- C8: a missing archival credential (owner, repo or token) means no
upload is attempted and the run's response equals the response of a run
with no archival sink configured at all; a thrown upload is caught and
likewise leaves the response as if the sink were skipped, with a `null`
github field. -/
theorem verify_archive_isolation (env : Env) (w : World) (req : VerifyReq) :
    ((safeEnv env.githubOwner = none ∨ safeEnv env.githubRepo = none ∨
        safeEnv env.githubToken = none) →
      (verifyHandler env w req).trace.all (fun e => !e.isGithubUpload) = true ∧
      (verifyHandler env w req).resp = (verifyHandler (clearGithub env) w req).resp) ∧
    (∀ msg, w.githubOutcome = .error msg →
      (verifyHandler env w req).resp = (verifyHandler (clearGithub env) w req).resp ∧
      (verifyHandler env w req).resp.githubField = none) := by
  constructor
  · intro h
    refine ⟨verifyHandler_no_upload_of_missing env w req h, ?_⟩
    exact verifyHandler_resp_of_ghResult_none env w req
      (githubSection_missing env w.githubOutcome _ h).1
  · intro msg hmsg
    refine ⟨?_, verifyHandler_githubField_none_of_error env w req msg hmsg⟩
    exact verifyHandler_resp_of_ghResult_none env w req
      (by rw [hmsg]; exact githubSection_result_none_of_error env msg _)

theorem verify_archive_isolation_witness :
    ((verifyHandler noTokenEnv quietWorld (mkSignedReq noTokenEnv "order_g" "pay_g" none)).trace.all
        (fun e => !e.isGithubUpload) = true ∧
      (verifyHandler noTokenEnv quietWorld (mkSignedReq noTokenEnv "order_g" "pay_g" none)).resp =
        (verifyHandler (clearGithub noTokenEnv) quietWorld
          (mkSignedReq noTokenEnv "order_g" "pay_g" none)).resp) ∧
    ((verifyHandler noTokenEnv quietWorld (mkSignedReq noTokenEnv "order_g" "pay_g" none)).resp =
        (verifyHandler (clearGithub noTokenEnv) quietWorld
          (mkSignedReq noTokenEnv "order_g" "pay_g" none)).resp ∧
      (verifyHandler noTokenEnv quietWorld
        (mkSignedReq noTokenEnv "order_g" "pay_g" none)).resp.githubField = none) :=
  ⟨(verify_archive_isolation noTokenEnv quietWorld
      (mkSignedReq noTokenEnv "order_g" "pay_g" none)).1 (Or.inr (Or.inr rfl)),
   (verify_archive_isolation noTokenEnv quietWorld
      (mkSignedReq noTokenEnv "order_g" "pay_g" none)).2 "network unreachable" rfl⟩

/-- C9: `/create-order` answers 400 without calling the gateway exactly
when `Number(amount)` is `NaN` or not strictly positive; a positive
coerced amount always reaches `razorpay.orders.create`, whose successful
result is returned to the caller. -/
theorem create_order_amount_guard (strNum : String → Option Rat) (w : World) (v : JSVal) :
    ((createOrderHandler strNum w v).resp = .badAmount ↔
      amountRejected (jsToNumber strNum v) = true) ∧
    ((createOrderHandler strNum w v).resp = .badAmount →
      (createOrderHandler strNum w v).trace = []) ∧
    (∀ q, jsToNumber strNum v = some q → 0 < q →
      Effect.createOrder q ∈ (createOrderHandler strNum w v).trace ∧
      ∀ o, w.orderOutcome = .ok o → (createOrderHandler strNum w v).resp = .okOrder o) := by
  unfold createOrderHandler amountRejected
  cases hj : jsToNumber strNum v with
  | none =>
    refine ⟨by simp, fun _ => rfl, ?_⟩
    intro q hq
    simp at hq
  | some q =>
    dsimp only
    by_cases hq : q ≤ 0
    · rw [if_pos hq]
      refine ⟨by simp [hq], fun _ => rfl, ?_⟩
      intro q2 hq2 hpos
      rw [Option.some_inj] at hq2
      subst hq2
      exact absurd hpos (by simpa using hq)
    · rw [if_neg hq]
      cases ho : w.orderOutcome with
      | ok o =>
        refine ⟨by simp [hq], by simp, ?_⟩
        intro q2 hq2 hpos
        rw [Option.some_inj] at hq2
        subst hq2
        refine ⟨by simp, ?_⟩
        intro o2 ho2
        cases ho2
        rfl
      | error msg =>
        refine ⟨by simp [hq], by simp, ?_⟩
        intro q2 hq2 hpos
        rw [Option.some_inj] at hq2
        subst hq2
        refine ⟨by simp, ?_⟩
        intro o2 ho2
        cases ho2

theorem create_order_amount_guard_witness :
    (createOrderHandler (fun _ => none) gatewayWorld .undef).resp = .badAmount ∧
    Effect.createOrder 50000 ∈
      (createOrderHandler (fun _ => none) gatewayWorld (.num 50000)).trace ∧
    (createOrderHandler (fun _ => none) gatewayWorld (.num 50000)).resp = .okOrder testOrder := by
  refine ⟨(create_order_amount_guard (fun _ => none) gatewayWorld .undef).1.mpr rfl, ?_, ?_⟩
  · exact ((create_order_amount_guard (fun _ => none) gatewayWorld (.num 50000)).2.2 50000 rfl
      (by norm_num)).1
  · exact ((create_order_amount_guard (fun _ => none) gatewayWorld (.num 50000)).2.2 50000 rfl
      (by norm_num)).2 testOrder rfl

/-- C10: whatever the event type and however the webhook request looks,
the webhook handler's effect trace consists of log lines only: it renders
nothing, creates no file, uploads nothing, sends no email, writes no
journal entry and calls no gateway. -/
theorem webhook_only_logs (env : Env) (parseJson : String → Option WebhookEvent)
    (req : WebhookReq) :
    (webhookHandler env parseJson req).trace.all Effect.isLog = true := by
  unfold webhookHandler webhookAccept
  cases safeEnv env.webhookSecret with
  | some s =>
    dsimp only
    split
    · rfl
    · cases parseJson req.rawBody with
      | none => rfl
      | some ev => simp [List.all_append, webhookEventLogs_all_log, Effect.isLog]
  | none =>
    dsimp only
    cases parseJson req.rawBody with
    | none => rfl
    | some ev => simp [List.all_append, webhookEventLogs_all_log, Effect.isLog]

end Chunari
